import Mathlib

/-!
Verification development for the camera-based service dashboard monitor.

The development shallowly embeds the pipeline of the repository:
color-mask region extraction (`image_processor.py`, `monitor.py`),
OCR-text harvesting near detected blobs, service-name resolution against
the configured registry (`config_manager.py`), the monitoring loops of
`dashboard_monitor.py` and `monitor.py`, and the WhatsApp alert
scheduling arithmetic of `alerts.py`.

Machine integers are modelled as `Nat`/`Int`; pixel coordinates fit
comfortably, and no arithmetic in the modelled code overflows.  OCR and
the camera are external effects: they are passed in as explicit oracles
(`Rect → String` for a captured frame read by the OCR engine, `Option`
for a capture that may fail, `Except` where the modelled code can raise).
Blob areas are modelled as integral pixel counts.
-/

/-! ## Service resolver (`config_manager.py`, `monitor.py` lines 45-55) -/

/-- One character of Python `str.lower()`.  The repository's service names
and OCR output are ASCII, where Python's `str.lower` agrees with ASCII
lowercasing. -/
def lowerChar (c : Char) : Char := c.toLower

/-- Python `service_name.lower()` (`config_manager.py` line 45): the string
with every character lowercased.  This is the normalized key the resolver
uses for registry matching. -/
def pyLower (s : String) : String := ⟨s.data.map lowerChar⟩

/-- Notification targets of one registry entry or of the default
configuration (`service_config.json` shape created in
`config_manager.py` lines 19-26). -/
structure NotifyConfig where
  email : List String
  whatsapp : List String
  whatsappGroups : List String
deriving DecidableEq

/-- The loaded configuration: the default notification targets plus the
`services` registry.  A Python `dict` preserves insertion order, so the
registry is modelled as an association list iterated in order. -/
structure ServiceConfig where
  defaultConfig : NotifyConfig
  services : List (String × NotifyConfig)
deriving DecidableEq

/-- `ConfigManager.get_service_config` (`config_manager.py` lines 34-53,
identical in `monitor.py` lines 46-56): lowercase the queried name, scan
the registry in iteration order for the first entry whose key lowercases
to the same string, and fall back to the default configuration when no
entry matches.  The Python `for`-loop with an early `return` is the
first-match scan `List.find?`. -/
def getServiceConfig (cfg : ServiceConfig) (serviceName : String) : NotifyConfig :=
  let lowerServiceName := pyLower serviceName
  match cfg.services.find? (fun p => pyLower p.1 == lowerServiceName) with
  | some p => p.2
  | none => cfg.defaultConfig

/-- The alert payload assembled for one down service in the monitoring
loop (`dashboard_monitor.py` lines 63-70): the raw service name as read
by OCR, paired with the configuration the resolver returned for it. -/
def downAlert (cfg : ServiceConfig) (service : String) : String × NotifyConfig :=
  (service, getServiceConfig cfg service)

/-- Boolean substring containment on strings, used only to state the
substring-matching step that the specification describes for the
resolver.  `strContains s p` holds when `p` occurs contiguously in `s`. -/
def strContains (s p : String) : Bool :=
  (List.range (s.data.length + 1)).any fun i =>
    List.take p.data.length (List.drop i s.data) == p.data

/-- Python `str.strip()` on a character list: drop whitespace from both
ends.  Whitespace is Lean's `Char.isWhitespace` (space, tab, carriage
return, line feed), which covers every whitespace character the OCR
engine emits. -/
def stripChars (cs : List Char) : List Char :=
  ((cs.dropWhile Char.isWhitespace).reverse.dropWhile Char.isWhitespace).reverse

/-- Python `str.strip()` on a string. -/
def pyStrip (s : String) : String := ⟨stripChars s.data⟩

/-! ## Region extraction (`image_processor.py`, `monitor.py` lines 875-888) -/

/-- One connected component found in a color mask: its `cv2.contourArea`
(modelled as an integral pixel count) and its `cv2.boundingRect`
top-left corner and dimensions.  `boundingRect` of a non-empty contour
always has `w ≥ 1` and `h ≥ 1`. -/
structure Blob where
  area : Nat
  x : Nat
  y : Nat
  w : Nat
  h : Nat
deriving DecidableEq

/-- A capture rectangle handed to OCR: `(x1, y1)` is the top-left corner
and `(x2, y2)` the exclusive bottom-right corner of the crop
`image[y1:y2, x1:x2]`. -/
structure Rect where
  x1 : Int
  y1 : Int
  x2 : Int
  y2 : Int
deriving DecidableEq

/-- The adjacent-text capture rectangle of `ImageProcessor.extract_text`
(`image_processor.py` lines 153-155, identically `monitor.py` lines
880-882): expand the blob's bounding box by 20 px vertically and 100 px
horizontally on each side; Python's slice arithmetic `max(0, ·)` /
`min(bound, ·)` clamps each coordinate to the frame. -/
def adjRect (W H : Nat) (b : Blob) : Rect where
  x1 := max 0 ((b.x : Int) - 100)
  y1 := max 0 ((b.y : Int) - 20)
  x2 := min (W : Int) ((b.x : Int) + (b.w : Int) + 100)
  y2 := min (H : Int) ((b.y : Int) + (b.h : Int) + 20)

/-- The indicator-dot capture rectangle of `ImageProcessor.detect_services`
(`image_processor.py` lines 85-101).  `rw` stands for the widened
rectangle width `int(w * 1.4)` — the float multiply-and-truncate is kept
abstract; every theorem about this rectangle assumes only `w ≤ rw`, which
`int(w * 1.4)` satisfies for `w ≥ 0`.  The rectangle height is
`int(h * 2) = 2 * h` exactly.  As in the source, `x2`/`y2` are computed
from the unclamped `x1`/`y1` and all four coordinates are clamped
afterwards. -/
def dotRect (W H : Nat) (b : Blob) (rw : Nat) : Rect :=
  let rh : Int := 2 * (b.h : Int)
  let x1 : Int := (b.x : Int) + (b.w : Int) / 2 - (rw : Int) / 2
  let y1 : Int := (b.y : Int)
  let x2 : Int := x1 + (rw : Int)
  let y2 : Int := y1 + rh
  { x1 := max 0 x1, y1 := max 0 y1, x2 := min (W : Int) x2, y2 := min (H : Int) y2 }

/-- A rectangle lies within a `W × H` frame: clamped, never negative,
never past the frame edge, and non-degenerate. -/
def rectInBounds (W H : Nat) (r : Rect) : Prop :=
  0 ≤ r.x1 ∧ r.x1 < r.x2 ∧ r.x2 ≤ (W : Int) ∧ 0 ≤ r.y1 ∧ r.y1 < r.y2 ∧ r.y2 ≤ (H : Int)

instance (W H : Nat) (r : Rect) : Decidable (rectInBounds W H r) := by
  unfold rectInBounds
  infer_instance

/-- Python's `roi.size == 0` test (`image_processor.py` line 157): the
cropped array is empty exactly when the rectangle is degenerate. -/
def rectEmpty (r : Rect) : Bool :=
  decide (r.x2 ≤ r.x1) || decide (r.y2 ≤ r.y1)

/-- A blob's bounding box lies inside a `W × H` frame with positive
dimensions — what `cv2.findContours`/`cv2.boundingRect` guarantee for a
contour of a mask of that size. -/
def blobInFrame (W H : Nat) (b : Blob) : Prop :=
  1 ≤ b.w ∧ 1 ≤ b.h ∧ b.x + b.w ≤ W ∧ b.y + b.h ≤ H

instance (W H : Nat) (b : Blob) : Decidable (blobInFrame W H b) := by
  unfold blobInFrame
  infer_instance

/-- `ImageProcessor.extract_text` (`image_processor.py` lines 137-165)
over a frame modelled by the OCR oracle `ocr : Rect → String` (the text
the OCR engine reads off each crop of the captured image) and the list
of external contours of the mask, in scan order.  A contour is processed
only when its area exceeds 100; an empty crop is skipped (`continue`);
the OCR result is stripped and appended only when non-empty. -/
def extractText (W H : Nat) (ocr : Rect → String) (contours : List Blob) : List String :=
  contours.filterMap fun c =>
    if 100 < c.area then
      let r := adjRect W H c
      if rectEmpty r then none
      else
        let text := pyStrip (ocr r)
        if text = "" then none else some text
    else none

/-- The `extract_text` variant of `monitor.py` (lines 875-888), which has
no `roi.size == 0` guard: every contour with area above 100 is cropped
and read directly. -/
def extractTextNoGuard (W H : Nat) (ocr : Rect → String) (contours : List Blob) : List String :=
  contours.filterMap fun c =>
    if 100 < c.area then
      let text := pyStrip (ocr (adjRect W H c))
      if text = "" then none else some text
    else none

/-- Text cleanup of `ImageProcessor.detect_services` (`image_processor.py`
lines 120-128): strip the raw OCR output, collapse embedded newlines to
single spaces, and strip again (the final `if extracted_text else ''`
of the source maps the empty string to itself).  Line breaks are
modelled as `'\n'`, the separator OCR emits. -/
def detectCleanup (raw : String) : String :=
  let t := pyStrip raw
  let t := if t.data.contains ('\n') then ⟨t.data.map fun c => if c = '\n' then ' ' else c⟩ else t
  if t = "" then "" else pyStrip t

/-- `ImageProcessor.detect_services` (`image_processor.py` lines 51-135)
restricted to its per-contour pipeline: skip contours with area below 50,
keep only blobs whose bounding-box aspect ratio `w / h` lies in
`[0.9, 1.1]` (stated exactly on integers as `9 h ≤ 10 w ∧ 10 w ≤ 11 h`),
crop the indicator-dot rectangle, read it, clean the text up and keep the
name only when non-empty.  `rwOf` abstracts the float computation
`int(w * 1.4)` of the widened rectangle width. -/
def detectServices (W H : Nat) (rwOf : Nat → Nat) (ocr : Rect → String)
    (contours : List Blob) : List String :=
  contours.filterMap fun c =>
    if c.area < 50 then none
    else if 9 * c.h ≤ 10 * c.w ∧ 10 * c.w ≤ 11 * c.h then
      let serviceName := detectCleanup (ocr (dotRect W H c (rwOf c.w)))
      if serviceName = "" then none else some serviceName
    else none

/-! ## Monitoring cycle (`dashboard_monitor.py` lines 42-89, `monitor.py` lines 1019-1065) -/

/-- Status assigned to one observed service. -/
inductive Status where
  | up
  | down
deriving DecidableEq

/-- Which color mask a region came from. -/
inductive MaskColor where
  | red
  | green
deriving DecidableEq

/-- One emitted service observation of a cycle: the OCR text, the status
it is reported with, and (model-side provenance) the mask whose contour
produced it. -/
structure Observation where
  name : String
  status : Status
  sourceMask : MaskColor
deriving DecidableEq

/-- The observation stage of one monitoring cycle
(`dashboard_monitor.py` lines 54-81): `down_services` is read from the
contours of the red mask and every element is handled as a DOWN service
(alerts sent), `up_services` is read from the green mask and every
element is logged UP.  `redContours`/`greenContours` are the external
contours of the two masks of the frame; `ocr` is the frame's OCR
oracle. -/
def cycleObservations (W H : Nat) (ocr : Rect → String)
    (redContours greenContours : List Blob) : List Observation :=
  let downServices := extractText W H ocr redContours
  let upServices := extractText W H ocr greenContours
  downServices.map (fun s => { name := s, status := Status.down, sourceMask := MaskColor.red })
    ++ upServices.map (fun s => { name := s, status := Status.up, sourceMask := MaskColor.green })

/-- Fate of one pass of the `while True` monitoring loop, as seen from
outside: either the loop goes on to the next cycle with the listed
observations, or an uncaught exception escapes the loop (its
`try`/`except` catches only `KeyboardInterrupt`) and monitoring stops. -/
inductive LoopOutcome where
  | nextCycle (obs : List Observation)
  | crashed (msg : String)
deriving DecidableEq

/-- `extract_text` re-modelled with a fallible OCR engine
(`ocr` returns `Except.error` where `pytesseract` would raise).  The
source loop (`image_processor.py` lines 151-163) has no `try`/`except`
around the OCR call, so an exception on one region aborts the whole
traversal: the fold short-circuits with the error.  Empty crops and
empty OCR results, by contrast, skip just their own region. -/
def extractTextFallible (W H : Nat) (ocr : Rect → Except String String)
    (contours : List Blob) : Except String (List String) :=
  contours.foldlM (fun acc c =>
    if 100 < c.area then
      let r := adjRect W H c
      if rectEmpty r then pure acc
      else do
        let raw ← ocr r
        let text := pyStrip raw
        if text = "" then pure acc else pure (acc ++ [text])
    else pure acc) []

/-- One monitoring-loop pass of `dashboard_monitor.py` with a fallible
OCR engine: the red extraction runs first, then the green one; any
uncaught OCR exception escapes the loop body, whose handler catches only
`KeyboardInterrupt`, so it ends monitoring. -/
def monitorPassFallible (W H : Nat) (ocr : Rect → Except String String)
    (redContours greenContours : List Blob) : LoopOutcome :=
  match (do
      let downServices ← extractTextFallible W H ocr redContours
      let upServices ← extractTextFallible W H ocr greenContours
      pure (downServices.map
              (fun s => { name := s, status := Status.down, sourceMask := MaskColor.red })
            ++ upServices.map
              (fun s => { name := s, status := Status.up, sourceMask := MaskColor.green })) :
      Except String (List Observation)) with
  | Except.ok obs => LoopOutcome.nextCycle obs
  | Except.error e => LoopOutcome.crashed e

/-- Result of one pass of the `dashboard_monitor.py` loop body
(lines 46-84): on capture failure the pass only sleeps 5 seconds and
retries (`continue`); on success the cycle runs, the listed alerts are
sent, the listed UP services are logged, and the loop sleeps 60 seconds. -/
inductive DmPass where
  | retry (sleepSecs : Nat)
  | ran (alerts : List (String × NotifyConfig)) (upLogs : List String) (sleepSecs : Nat)
deriving DecidableEq

/-- Alerts sent during one `dashboard_monitor.py` loop pass. -/
def DmPass.alerts : DmPass → List (String × NotifyConfig)
  | DmPass.retry _ => []
  | DmPass.ran a _ _ => a

/-- Service-log rows written during one `dashboard_monitor.py` loop pass
(the DOWN rows written inside alert dispatch are accounted under
`alerts`; `upLogs` are the UP rows of lines 73-81). -/
def DmPass.upLogs : DmPass → List String
  | DmPass.retry _ => []
  | DmPass.ran _ l _ => l

/-- One pass of the `dashboard_monitor.py` monitoring loop (lines 46-84).
`frame` is the result of `CameraManager.capture_frame`, which returns
`None` on failure; a captured frame is modelled by its OCR oracle.  On
`None` the body prints, sleeps 5 seconds and `continue`s — no alert is
sent and no log row is written. -/
def dmPass (cfg : ServiceConfig) (W H : Nat) (frame : Option (Rect → String))
    (redContours greenContours : List Blob) : DmPass :=
  match frame with
  | none => DmPass.retry 5
  | some ocr =>
      let downServices := extractText W H ocr redContours
      let upServices := extractText W H ocr greenContours
      DmPass.ran (downServices.map (fun s => downAlert cfg s)) upServices 60

/-- `DashboardMonitor.capture_dashboard` of `monitor.py` (lines 861-866):
`camera.read()` either yields a frame or reports failure, and on failure
the method raises an exception instead of returning a sentinel. -/
def captureDashboard {α : Type} (readResult : Option α) : Except String α :=
  match readResult with
  | some frame => Except.ok frame
  | none => Except.error ("Failed to capture image from camera")

/-- One pass of the `monitor.py` monitoring loop (lines 1019-1060): the
body calls `capture_dashboard` with no handler, and the surrounding
`try` catches only `KeyboardInterrupt`, so a capture failure crashes the
loop.  On success the cycle's observations are produced with the
guard-free `extract_text` of `monitor.py`. -/
def mPass (W H : Nat) (frame : Option (Rect → String))
    (redContours greenContours : List Blob) : LoopOutcome :=
  match captureDashboard frame with
  | Except.error e => LoopOutcome.crashed e
  | Except.ok ocr =>
      let downServices := extractTextNoGuard W H ocr redContours
      let upServices := extractTextNoGuard W H ocr greenContours
      LoopOutcome.nextCycle
        (downServices.map (fun s => { name := s, status := Status.down, sourceMask := MaskColor.red })
          ++ upServices.map (fun s => { name := s, status := Status.up, sourceMask := MaskColor.green }))

/-! ## WhatsApp alert scheduling (`alerts.py` lines 40-41, `monitor.py` lines 895-896) -/

/-- A wall-clock time of day as Python's `datetime` carries it (the date
fields are unaffected by the modelled code and are omitted). -/
structure PyDateTime where
  hour : Nat
  minute : Nat
  second : Nat
deriving DecidableEq

/-- Python `datetime.replace(minute=m)`: returns the same time with the
minute field replaced, after validating the field — `minute` outside
`0..59` raises `ValueError('minute must be in 0..59')`.  `m : Nat` is
never negative, so only the upper bound can fail. -/
def replaceMinute (t : PyDateTime) (m : Nat) : Except String PyDateTime :=
  if m ≤ 59 then Except.ok { t with minute := m }
  else Except.error ("minute must be in 0..59")

/-- The scheduled send time of `AlertManager.send_whatsapp_alert`
(`alerts.py` lines 40-41, identically `monitor.py` lines 895-896):
`current_time.replace(minute=current_time.minute + 2)`. -/
def whatsappSendTime (currentTime : PyDateTime) : Except String PyDateTime :=
  replaceMinute currentTime (currentTime.minute + 2)

/-- Minutes since midnight of a time of day, used to state that a
scheduled send time is exactly two minutes after the current time. -/
def minutesOfDay (t : PyDateTime) : Nat :=
  60 * t.hour + t.minute

/-! ## Helper lemmas -/

/-- The adjacent-text rectangle of any in-frame blob lies within the
frame. -/
theorem adjRect_inBounds (W H : Nat) (b : Blob) (hb : blobInFrame W H b) :
    rectInBounds W H (adjRect W H b) := by
  obtain ⟨hw, hh, hxw, hyh⟩ := hb
  simp only [adjRect, rectInBounds]
  omega

/-- The indicator-dot rectangle of any in-frame blob lies within the
frame, for any widened width `rw ≥ w` (in particular for
`rw = int(w * 1.4)`). -/
theorem dotRect_inBounds (W H : Nat) (b : Blob) (rw : Nat)
    (hb : blobInFrame W H b) (hrw : b.w ≤ rw) :
    rectInBounds W H (dotRect W H b rw) := by
  obtain ⟨hw, hh, hxw, hyh⟩ := hb
  simp only [dotRect, rectInBounds]
  omega

/-- A rectangle within bounds is never degenerate, so the `roi.size == 0`
guard of `extract_text` does not fire on it. -/
theorem rectEmpty_eq_false (W H : Nat) (r : Rect) (h : rectInBounds W H r) :
    rectEmpty r = false := by
  obtain ⟨-, h2, -, -, h5, -⟩ := h
  simp only [rectEmpty, Bool.or_eq_false_iff, decide_eq_false_iff_not]
  omega

/-- When the queried name matches no registry key case-insensitively, the
registry scan of `get_service_config` comes up empty. -/
theorem find?_eq_none_of_no_match (services : List (String × NotifyConfig)) (name : String)
    (h : ∀ p ∈ services, pyLower p.1 ≠ pyLower name) :
    services.find? (fun p => pyLower p.1 == pyLower name) = none :=
  List.find?_eq_none.mpr fun p hp => by simpa using h p hp

/-- Every string emitted by `extract_text` is non-empty: the
`if text:` guard drops empty OCR results. -/
theorem mem_extractText_ne_empty (W H : Nat) (ocr : Rect → String)
    (contours : List Blob) (s : String) (hs : s ∈ extractText W H ocr contours) :
    s ≠ "" := by
  rw [extractText, List.mem_filterMap] at hs
  obtain ⟨c, -, hc⟩ := hs
  by_cases h1 : 100 < c.area
  · rw [if_pos h1] at hc
    by_cases h2 : rectEmpty (adjRect W H c) = true
    · rw [if_pos h2] at hc
      cases hc
    · rw [if_neg h2] at hc
      by_cases h3 : pyStrip (ocr (adjRect W H c)) = ""
      · rw [if_pos h3] at hc
        cases hc
      · rw [if_neg h3] at hc
        rw [Option.some_inj] at hc
        rw [← hc]
        exact h3
  · rw [if_neg h1] at hc
    cases hc

/-- Every service name emitted by `detect_services` is non-empty: the
`if service_name:` guard drops empty cleaned-up OCR results. -/
theorem mem_detectServices_ne_empty (W H : Nat) (rwOf : Nat → Nat) (ocr : Rect → String)
    (contours : List Blob) (s : String)
    (hs : s ∈ detectServices W H rwOf ocr contours) : s ≠ "" := by
  rw [detectServices, List.mem_filterMap] at hs
  obtain ⟨c, -, hc⟩ := hs
  by_cases h1 : c.area < 50
  · rw [if_pos h1] at hc
    cases hc
  · rw [if_neg h1] at hc
    by_cases h2 : 9 * c.h ≤ 10 * c.w ∧ 10 * c.w ≤ 11 * c.h
    · rw [if_pos h2] at hc
      by_cases h3 : detectCleanup (ocr (dotRect W H c (rwOf c.w))) = ""
      · rw [if_pos h3] at hc
        cases hc
      · rw [if_neg h3] at hc
        rw [Option.some_inj] at hc
        rw [← hc]
        exact h3
    · rw [if_neg h2] at hc
      cases hc

/-! ## Claims -/

/-- C3: for every frame of width `W ≥ 1` and height `H ≥ 1` and every
detected blob whose bounding box lies within the frame, the computed
capture rectangle satisfies `0 ≤ x1 < x2 ≤ W` and `0 ≤ y1 < y2 ≤ H` —
clamped, never negative, never past the frame edge — both for the
adjacent-text rectangle of `extract_text` and for the indicator-dot
rectangle of `detect_services` (whose widened width `int(w * 1.4)` is any
`rw ≥ w`). -/
theorem claim3_capture_rect_in_bounds (W H : Nat) (b : Blob) (rw : Nat)
    (hb : blobInFrame W H b) (hrw : b.w ≤ rw) :
    rectInBounds W H (adjRect W H b) ∧ rectInBounds W H (dotRect W H b rw) :=
  ⟨adjRect_inBounds W H b hb, dotRect_inBounds W H b rw hb hrw⟩

/-- Witness for C3 at a concrete in-frame blob: a 20 × 20 blob at
(100, 100) in a 640 × 480 frame, with widened width `int(20 * 1.4) = 28`. -/
theorem claim3_witness :
    rectInBounds 640 480 (adjRect 640 480 (Blob.mk 400 100 100 20 20)) ∧
    rectInBounds 640 480 (dotRect 640 480 (Blob.mk 400 100 100 20 20) 28) :=
  claim3_capture_rect_in_bounds 640 480 (Blob.mk 400 100 100 20 20) 28
    (by decide) (by decide)

/-- C1 (counterexample): the claim asserts that the resolver's normalized
key lowercases and strips every character outside the class of lowercase
letters, digits and hyphen, so that the key of "BTSS!! (Cyber_Channel)"
is "btsscyberchannel".  The code (`config_manager.py` line 45) only
lowercases: the key of that input keeps its punctuation, spaces and
underscore, and differs from the claimed value. -/
theorem claim1_counterexample :
    pyLower ("BTSS!! (Cyber_Channel)") = ("btss!! (cyber_channel)") ∧
    pyLower ("BTSS!! (Cyber_Channel)") ≠ ("btsscyberchannel") := by
  decide

/-- C1 (amended): the normalized key used for registry matching is the
raw OCR string lowercased, with every character retained — no character
is ever stripped (the key always has the same length as the input) — and
in particular the key of "BTSS!! (Cyber_Channel)" is
"btss!! (cyber_channel)". -/
theorem claim1_lowercase_only :
    (∀ s : String, (pyLower s).length = s.length) ∧
    pyLower ("BTSS!! (Cyber_Channel)") = ("btss!! (cyber_channel)") := by
  constructor
  · intro s
    show (s.data.map lowerChar).length = s.data.length
    exact List.length_map s.data lowerChar
  · decide

/-- C2 (counterexample): the claim asserts a second matching step — when
no exact case-insensitive match exists, substring containment in either
direction finds the service.  In the code there is no such step: with
the registry holding exactly the key "abc", the input "abcd" has no
exact match, the registered key is contained in the normalized input,
yet resolution returns the default configuration, not the "abc" entry's
configuration. -/
theorem claim2_counterexample :
    pyLower ("abc") ≠ pyLower ("abcd") ∧
    strContains (pyLower ("abcd")) (pyLower ("abc")) = true ∧
    getServiceConfig
        (ServiceConfig.mk (NotifyConfig.mk [] [] [])
          [(("abc"), NotifyConfig.mk [("a@example.com")] [] [])])
        ("abcd")
      = NotifyConfig.mk [] [] [] ∧
    NotifyConfig.mk [] [] [] ≠ NotifyConfig.mk [("a@example.com")] [] [] := by
  refine ⟨by decide, by decide, ?_, by decide⟩
  decide

/-- C2 (amended): service resolution applies exactly one matching step —
a scan of the registry in iteration order for the first entry whose key
is case-insensitively equal to the input — and falls back to the default
configuration when that scan fails; there is no substring-containment
step.  Consequently an exact-match entry always wins: if some prefix of
the registry contains no exact match and is followed by an exact-match
entry, that entry's configuration is returned. -/
theorem claim2_exact_match_only (cfg : ServiceConfig) (name : String) :
    ((∀ p ∈ cfg.services, pyLower p.1 ≠ pyLower name) →
      getServiceConfig cfg name = cfg.defaultConfig) ∧
    (∀ pre k c rest, cfg.services = pre ++ (k, c) :: rest →
      (∀ p ∈ pre, pyLower p.1 ≠ pyLower name) →
      pyLower k = pyLower name →
      getServiceConfig cfg name = c) := by
  constructor
  · intro h
    rw [getServiceConfig, find?_eq_none_of_no_match cfg.services name h]
  · intro pre k c rest hsplit hpre hk
    rw [getServiceConfig, hsplit, List.find?_append,
      find?_eq_none_of_no_match pre name hpre,
      List.find?_cons_of_pos _ (by simpa using hk)]
    rfl

/-- Witness for C2 at concrete registries: a registry with a
substring-related key only resolves "abcd" to the default configuration,
and a registry whose second entry matches "btss" exactly (after
lowercasing) resolves to that entry's configuration. -/
theorem claim2_witness :
    getServiceConfig
        (ServiceConfig.mk (NotifyConfig.mk [] [] [])
          [(("abc"), NotifyConfig.mk [("a@example.com")] [] [])])
        ("abcd")
      = NotifyConfig.mk [] [] [] ∧
    getServiceConfig
        (ServiceConfig.mk (NotifyConfig.mk [] [] [])
          [(("zzz"), NotifyConfig.mk [] [("111")] []),
           (("BTSS"), NotifyConfig.mk [("b@example.com")] [] [])])
        ("btss")
      = NotifyConfig.mk [("b@example.com")] [] [] :=
  ⟨(claim2_exact_match_only
      (ServiceConfig.mk (NotifyConfig.mk [] [] [])
        [(("abc"), NotifyConfig.mk [("a@example.com")] [] [])]) ("abcd")).1
      (by decide),
   (claim2_exact_match_only
      (ServiceConfig.mk (NotifyConfig.mk [] [] [])
        [(("zzz"), NotifyConfig.mk [] [("111")] []),
         (("BTSS"), NotifyConfig.mk [("b@example.com")] [] [])]) ("btss")).2
      [(("zzz"), NotifyConfig.mk [] [("111")] [])]
      ("BTSS") (NotifyConfig.mk [("b@example.com")] [] []) []
      rfl (by decide) (by decide)⟩

/-- C5: service resolution is a total function — it never raises — and
when no registered key matches the input case-insensitively it degrades
to the default notification configuration, the down-service alert payload
carrying the raw input name with that default configuration. -/
theorem claim5_default_fallback (cfg : ServiceConfig) (name : String)
    (h : ∀ p ∈ cfg.services, pyLower p.1 ≠ pyLower name) :
    getServiceConfig cfg name = cfg.defaultConfig ∧
    downAlert cfg name = (name, cfg.defaultConfig) := by
  have hd : getServiceConfig cfg name = cfg.defaultConfig := by
    rw [getServiceConfig, find?_eq_none_of_no_match cfg.services name h]
  exact ⟨hd, by rw [downAlert, hd]⟩

/-- Witness for C5: a name absent from a concrete registry resolves to
the default configuration, with the alert payload carrying the raw
name. -/
theorem claim5_witness :
    getServiceConfig
        (ServiceConfig.mk (NotifyConfig.mk [("ops@example.com")] [] [])
          [(("btss"), NotifyConfig.mk [("x@example.com")] [] [])])
        ("Unknown Service")
      = NotifyConfig.mk [("ops@example.com")] [] [] ∧
    downAlert
        (ServiceConfig.mk (NotifyConfig.mk [("ops@example.com")] [] [])
          [(("btss"), NotifyConfig.mk [("x@example.com")] [] [])])
        ("Unknown Service")
      = (("Unknown Service"), NotifyConfig.mk [("ops@example.com")] [] []) :=
  claim5_default_fallback
    (ServiceConfig.mk (NotifyConfig.mk [("ops@example.com")] [] [])
      [(("btss"), NotifyConfig.mk [("x@example.com")] [] [])])
    ("Unknown Service") (by decide)

/-- C4: in every monitoring cycle, an observation's status is DOWN if and
only if its region came from the red mask, and UP if and only if it came
from the green mask — red-mask regions are exactly the alerted
down-services and green-mask regions exactly the logged up-services,
independently of the OCR text content. -/
theorem claim4_status_from_mask (W H : Nat) (ocr : Rect → String)
    (redContours greenContours : List Blob) (obs : Observation)
    (h : obs ∈ cycleObservations W H ocr redContours greenContours) :
    (obs.status = Status.down ↔ obs.sourceMask = MaskColor.red) ∧
    (obs.status = Status.up ↔ obs.sourceMask = MaskColor.green) := by
  rw [cycleObservations, List.mem_append] at h
  rcases h with h | h <;> rw [List.mem_map] at h <;> obtain ⟨s, -, rfl⟩ := h <;>
    refine ⟨?_, ?_⟩ <;> simp

/-- Witness for C4: a concrete cycle over one red contour produces the
observation named "svc" with status DOWN from the red mask, and the
claim theorem's equivalences hold for it. -/
theorem claim4_witness :
    ((Observation.mk ("svc") Status.down MaskColor.red).status = Status.down ↔
      (Observation.mk ("svc") Status.down MaskColor.red).sourceMask = MaskColor.red) ∧
    ((Observation.mk ("svc") Status.down MaskColor.red).status = Status.up ↔
      (Observation.mk ("svc") Status.down MaskColor.red).sourceMask = MaskColor.green) :=
  claim4_status_from_mask 640 480 (fun _ => ("svc")) [Blob.mk 200 10 10 20 20] []
    (Observation.mk ("svc") Status.down MaskColor.red) (by decide)

/-- C9: a region whose OCR output strips to the empty string contributes
no observation — skipping it is not an error, the rest of the scan
proceeds unchanged — and no empty-named service ever appears in the
output of `extract_text`, of `detect_services`, or among the up/down
observations of a cycle. -/
theorem claim9_empty_text_dropped (W H : Nat) (ocr : Rect → String) (rwOf : Nat → Nat)
    (c : Blob) (rest contours redContours greenContours : List Blob)
    (hemp : pyStrip (ocr (adjRect W H c)) = "") :
    extractText W H ocr (c :: rest) = extractText W H ocr rest ∧
    (∀ s ∈ extractText W H ocr contours, s ≠ "") ∧
    (∀ s ∈ detectServices W H rwOf ocr contours, s ≠ "") ∧
    (∀ obs ∈ cycleObservations W H ocr redContours greenContours, obs.name ≠ "") := by
  refine ⟨?_, fun s hs => mem_extractText_ne_empty W H ocr contours s hs,
    fun s hs => mem_detectServices_ne_empty W H rwOf ocr contours s hs, ?_⟩
  · rw [extractText, extractText, List.filterMap_cons]
    by_cases h1 : 100 < c.area
    · rw [if_pos h1]
      by_cases h2 : rectEmpty (adjRect W H c) = true
      · rw [if_pos h2]
      · rw [if_neg h2, hemp, if_pos rfl]
    · rw [if_neg h1]
  · intro obs hobs
    rw [cycleObservations, List.mem_append] at hobs
    rcases hobs with h | h <;> rw [List.mem_map] at h <;> obtain ⟨s, hs, rfl⟩ := h
    · exact mem_extractText_ne_empty W H ocr redContours s hs
    · exact mem_extractText_ne_empty W H ocr greenContours s hs

/-- Witness for C9: a region read as whitespace-only text is dropped — a
cycle over one green blob whose OCR output is a blank string emits no
observation at all. -/
theorem claim9_witness :
    extractText 640 480 (fun _ => ("  \n ")) [Blob.mk 200 10 10 20 20]
      = extractText 640 480 (fun _ => ("  \n ")) [] :=
  (claim9_empty_text_dropped 640 480 (fun _ => ("  \n ")) (fun w => 14 * w / 10)
    (Blob.mk 200 10 10 20 20) [] [] [] [] (by decide)).1

/-- A `filterMap` whose function acts as keep-or-drop according to a
predicate is the `map` of the `filter`.  Used to characterize which
contours each scan processes. -/
theorem filterMap_eq_map_filter {α β : Type} (f : α → Option β) (p : α → Bool) (g : α → β)
    (l : List α) (hf : ∀ a ∈ l, f a = if p a then some (g a) else none) :
    l.filterMap f = (l.filter p).map g := by
  induction l with
  | nil => rfl
  | cons a l ih =>
    rw [List.filterMap_cons, List.filter_cons, hf a (List.mem_cons_self a l)]
    by_cases hp : p a = true
    · rw [if_pos hp, if_pos hp]
      show g a :: l.filterMap f = g a :: (l.filter p).map g
      rw [ih fun x hx => hf x (List.mem_cons_of_mem a hx)]
    · rw [if_neg hp, if_neg hp]
      show l.filterMap f = (l.filter p).map g
      exact ih fun x hx => hf x (List.mem_cons_of_mem a hx)

/-- Characterization of the generic mask scan: over in-frame contours and
an OCR engine whose stripped output is never empty, `extract_text`
processes exactly the contours of area above 100, in order. -/
theorem extractText_eq_filter_map (W H : Nat) (ocr : Rect → String) (contours : List Blob)
    (hframe : ∀ b ∈ contours, blobInFrame W H b)
    (hocr : ∀ r, pyStrip (ocr r) ≠ "") :
    extractText W H ocr contours
      = (contours.filter fun c => decide (100 < c.area)).map
          (fun c => pyStrip (ocr (adjRect W H c))) := by
  rw [extractText]
  refine filterMap_eq_map_filter _ _ _ _ fun c hc => ?_
  have hne : rectEmpty (adjRect W H c) = false :=
    rectEmpty_eq_false W H _ (adjRect_inBounds W H c (hframe c hc))
  by_cases h1 : 100 < c.area
  · simp [h1, hne, hocr (adjRect W H c)]
  · simp [h1]

/-- Characterization of the indicator-dot detector: over an OCR engine
whose cleaned-up output is never empty, `detect_services` processes
exactly the blobs of area at least 50 whose bounding-box aspect ratio
lies in `[0.9, 1.1]`, in order. -/
theorem detectServices_eq_filter_map (W H : Nat) (rwOf : Nat → Nat) (ocr : Rect → String)
    (contours : List Blob)
    (hocr : ∀ r, detectCleanup (ocr r) ≠ "") :
    detectServices W H rwOf ocr contours
      = (contours.filter fun c =>
            decide (50 ≤ c.area) &&
              (decide (9 * c.h ≤ 10 * c.w) && decide (10 * c.w ≤ 11 * c.h))).map
          (fun c => detectCleanup (ocr (dotRect W H c (rwOf c.w)))) := by
  rw [detectServices]
  refine filterMap_eq_map_filter _ _ _ _ fun c hc => ?_
  by_cases h1 : c.area < 50
  · have : ¬ 50 ≤ c.area := by omega
    simp [h1, this]
  · have h50 : 50 ≤ c.area := by omega
    by_cases h2 : 9 * c.h ≤ 10 * c.w ∧ 10 * c.w ≤ 11 * c.h
    · simp [h1, h50, h2.1, h2.2, hocr (dotRect W H c (rwOf c.w))]
    · rcases Decidable.not_and_iff_or_not.mp h2 with h | h <;> simp [h1, h50, h]

/-- C8 (counterexample): the claim reads the indicator-dot detector's
filter as strictly tightening the generic `area > 100` filter with the
aspect-ratio test.  It does not: the dot detector's own area threshold
is `area ≥ 50` (`image_processor.py` line 79), so a square 10 × 10 blob
of area 60 is processed and emitted by the dot detector while the
generic mask scan rejects it. -/
theorem claim8_counterexample :
    detectServices 640 480 (fun w => 14 * w / 10) (fun _ => ("dot")) [Blob.mk 60 50 50 10 10]
      = [("dot")] ∧
    extractText 640 480 (fun _ => ("dot")) [Blob.mk 60 50 50 10 10] = [] := by
  constructor <;> rfl

/-- C8 (amended): the generic mask scan processes exactly the external
contours whose area is strictly greater than 100 pixels, and the
dedicated indicator-dot detector processes exactly the blobs whose area
is at least 50 — a looser area threshold than the generic one — and
whose bounding-box aspect ratio `w / h` lies in `[0.9, 1.1]` (deviates
from 1:1 by no more than 10%).  Stated over in-frame contours and OCR
output that survives stripping/cleanup, so that every processed contour
is visible in the result. -/
theorem claim8_area_and_ratio_filters (W H : Nat) (rwOf : Nat → Nat) (ocr : Rect → String)
    (contours : List Blob)
    (hframe : ∀ b ∈ contours, blobInFrame W H b)
    (hstrip : ∀ r, pyStrip (ocr r) ≠ "")
    (hclean : ∀ r, detectCleanup (ocr r) ≠ "") :
    extractText W H ocr contours
      = (contours.filter fun c => decide (100 < c.area)).map
          (fun c => pyStrip (ocr (adjRect W H c))) ∧
    detectServices W H rwOf ocr contours
      = (contours.filter fun c =>
            decide (50 ≤ c.area) &&
              (decide (9 * c.h ≤ 10 * c.w) && decide (10 * c.w ≤ 11 * c.h))).map
          (fun c => detectCleanup (ocr (dotRect W H c (rwOf c.w)))) :=
  ⟨extractText_eq_filter_map W H ocr contours hframe hstrip,
   detectServices_eq_filter_map W H rwOf ocr contours hclean⟩

/-- Witness for C8 over two concrete in-frame blobs — a 20 × 20 blob of
area 200 and a 10 × 10 blob of area 60: the generic scan keeps only the
first, the dot detector keeps both. -/
theorem claim8_witness :
    extractText 640 480 (fun _ => ("svc")) [Blob.mk 200 10 10 20 20, Blob.mk 60 50 50 10 10]
      = [("svc")] ∧
    detectServices 640 480 (fun w => 14 * w / 10) (fun _ => ("svc"))
        [Blob.mk 200 10 10 20 20, Blob.mk 60 50 50 10 10]
      = [("svc"), ("svc")] :=
  claim8_area_and_ratio_filters 640 480 (fun w => 14 * w / 10) (fun _ => ("svc"))
    [Blob.mk 200 10 10 20 20, Blob.mk 60 50 50 10 10]
    (by decide) (fun _ => (by decide : pyStrip ("svc") ≠ ""))
    (fun _ => (by decide : detectCleanup ("svc") ≠ ""))

/-- Binding a raised exception short-circuits: no later step runs. -/
theorem exceptBind_error {ε α β : Type} (e : ε) (f : α → Except ε β) :
    (Except.error e >>= f) = Except.error e := rfl

/-- Binding a normal result continues with it. -/
theorem exceptBind_ok {ε α β : Type} (a : α) (f : α → Except ε β) :
    (Except.ok a >>= f) = f a := rfl

/-- An empty crop skips exactly its own region: the fallible scan over
`c :: rest` equals the scan over `rest`. -/
theorem extractTextFallible_skip_emptyRoi (W H : Nat) (ocr : Rect → Except String String)
    (c : Blob) (rest : List Blob) (h : rectEmpty (adjRect W H c) = true) :
    extractTextFallible W H ocr (c :: rest) = extractTextFallible W H ocr rest := by
  simp [extractTextFallible, List.foldlM_cons, h]

/-- An OCR exception on one qualifying region aborts the whole scan with
that error — the regions after it are never visited. -/
theorem extractTextFallible_abort (W H : Nat) (ocr : Rect → Except String String)
    (c : Blob) (rest : List Blob) (e : String)
    (h1 : 100 < c.area) (h2 : rectEmpty (adjRect W H c) = false)
    (herr : ocr (adjRect W H c) = Except.error e) :
    extractTextFallible W H ocr (c :: rest) = Except.error e := by
  simp only [extractTextFallible, List.foldlM_cons, if_pos h1, h2, Bool.false_eq_true,
    if_false, herr, exceptBind_error]

/-- An OCR result that strips to the empty string skips exactly its own
region: the fallible scan over `c :: rest` equals the scan over
`rest`. -/
theorem extractTextFallible_skip_emptyText (W H : Nat) (ocr : Rect → Except String String)
    (c : Blob) (rest : List Blob) (raw : String)
    (hok : ocr (adjRect W H c) = Except.ok raw) (hraw : pyStrip raw = "") :
    extractTextFallible W H ocr (c :: rest) = extractTextFallible W H ocr rest := by
  by_cases h1 : 100 < c.area
  · by_cases h2 : rectEmpty (adjRect W H c) = true
    · simp [extractTextFallible, List.foldlM_cons, h2]
    · simp [extractTextFallible, List.foldlM_cons, h1, h2, hok, hraw, exceptBind_ok]
  · simp [extractTextFallible, List.foldlM_cons, h1]

/-- C6 (counterexample): the claim says a per-region OCR failure skips
only that region and the cycle still completes.  The extraction loop has
no per-region exception handler: over two qualifying red-mask regions
with the OCR engine raising on the first one, the scan returns the
exception — the second region (which reads "svc2" under a working
engine) is never processed — and the loop pass crashes, since the
monitoring loop catches only keyboard interrupts. -/
theorem claim6_counterexample :
    extractTextFallible 640 480
        (fun r => if r = adjRect 640 480 (Blob.mk 200 10 10 20 20)
          then Except.error ("ocr failed") else Except.ok ("svc2"))
        [Blob.mk 200 10 10 20 20, Blob.mk 300 10 100 20 20]
      = Except.error ("ocr failed") ∧
    monitorPassFallible 640 480
        (fun r => if r = adjRect 640 480 (Blob.mk 200 10 10 20 20)
          then Except.error ("ocr failed") else Except.ok ("svc2"))
        [Blob.mk 200 10 10 20 20, Blob.mk 300 10 100 20 20] []
      = LoopOutcome.crashed ("ocr failed") ∧
    extractTextFallible 640 480 (fun _ => Except.ok ("svc2"))
        [Blob.mk 200 10 10 20 20, Blob.mk 300 10 100 20 20]
      = Except.ok [("svc2"), ("svc2")] := by
  refine ⟨rfl, rfl, rfl⟩

/-- C6 (amended): the only per-region faults absorbed by the extraction
loop are an empty crop (skipped by `continue`) and an OCR result that
strips to the empty string (dropped) — either skips exactly its own
region, the rest of the frame still being processed; an OCR exception on
a qualifying region is not caught — it aborts the scan of the remaining
regions and crashes the monitoring loop, whose handler catches only
keyboard interrupts. -/
theorem claim6_skip_or_abort (W H : Nat) (ocr : Rect → Except String String)
    (c : Blob) (rest greenContours : List Blob) (e raw : String) :
    (rectEmpty (adjRect W H c) = true →
      extractTextFallible W H ocr (c :: rest) = extractTextFallible W H ocr rest) ∧
    (ocr (adjRect W H c) = Except.ok raw → pyStrip raw = "" →
      extractTextFallible W H ocr (c :: rest) = extractTextFallible W H ocr rest) ∧
    (100 < c.area → rectEmpty (adjRect W H c) = false →
      ocr (adjRect W H c) = Except.error e →
      extractTextFallible W H ocr (c :: rest) = Except.error e) ∧
    (extractTextFallible W H ocr (c :: rest) = Except.error e →
      monitorPassFallible W H ocr (c :: rest) greenContours = LoopOutcome.crashed e) := by
  refine ⟨fun h => extractTextFallible_skip_emptyRoi W H ocr c rest h,
    fun hok hraw => extractTextFallible_skip_emptyText W H ocr c rest raw hok hraw,
    fun h1 h2 herr => extractTextFallible_abort W H ocr c rest e h1 h2 herr,
    fun hred => ?_⟩
  rw [monitorPassFallible, hred, exceptBind_error]

/-- Witness for C6: an out-of-frame blob with an empty crop is skipped
individually, a qualifying in-frame blob whose OCR output is
whitespace-only is skipped individually, and an OCR exception on a
qualifying in-frame blob aborts the scan and crashes the loop pass. -/
theorem claim6_witness :
    extractTextFallible 640 480 (fun _ => Except.error ("boom"))
        [Blob.mk 200 800 10 20 20]
      = extractTextFallible 640 480 (fun _ => Except.error ("boom")) [] ∧
    extractTextFallible 640 480 (fun _ => Except.ok ("  \n "))
        [Blob.mk 200 10 10 20 20]
      = extractTextFallible 640 480 (fun _ => Except.ok ("  \n ")) [] ∧
    extractTextFallible 640 480 (fun _ => Except.error ("boom"))
        [Blob.mk 200 10 10 20 20]
      = Except.error ("boom") ∧
    monitorPassFallible 640 480 (fun _ => Except.error ("boom"))
        [Blob.mk 200 10 10 20 20] []
      = LoopOutcome.crashed ("boom") :=
  ⟨(claim6_skip_or_abort 640 480 (fun _ => Except.error ("boom"))
      (Blob.mk 200 800 10 20 20) [] [] ("boom") ("")).1 (by decide),
   (claim6_skip_or_abort 640 480 (fun _ => Except.ok ("  \n "))
      (Blob.mk 200 10 10 20 20) [] [] ("boom") ("  \n ")).2.1 rfl (by decide),
   (claim6_skip_or_abort 640 480 (fun _ => Except.error ("boom"))
      (Blob.mk 200 10 10 20 20) [] [] ("boom") ("")).2.2.1 (by decide) (by decide) rfl,
   (claim6_skip_or_abort 640 480 (fun _ => Except.error ("boom"))
      (Blob.mk 200 10 10 20 20) [] [] ("boom") ("")).2.2.2
     ((claim6_skip_or_abort 640 480 (fun _ => Except.error ("boom"))
       (Blob.mk 200 10 10 20 20) [] [] ("boom") ("")).2.2.1 (by decide) (by decide) rfl)⟩

/-- C7 (counterexample): the claim says a capture failure is never fatal
to the process and the loop retries.  In the `monitor.py` variant,
`capture_dashboard` raises on a failed `camera.read()` and the
monitoring loop catches only keyboard interrupts, so a capture failure
crashes the loop instead of retrying. -/
theorem claim7_counterexample :
    mPass 640 480 none [] [] = LoopOutcome.crashed ("Failed to capture image from camera") :=
  rfl

/-- C7 (amended): in the `dashboard_monitor.py` loop a capture failure
abandons the cycle — no alert is sent, no log row is written — and the
loop retries after a fixed 5-second back-off; in the `monitor.py`
variant, by contrast, the raised capture exception is uncaught and
terminates the monitoring loop. -/
theorem claim7_capture_failure_split (cfg : ServiceConfig) (W H : Nat)
    (redContours greenContours : List Blob) :
    dmPass cfg W H none redContours greenContours = DmPass.retry 5 ∧
    DmPass.alerts (dmPass cfg W H none redContours greenContours) = [] ∧
    DmPass.upLogs (dmPass cfg W H none redContours greenContours) = [] ∧
    mPass W H none redContours greenContours
      = LoopOutcome.crashed ("Failed to capture image from camera") :=
  ⟨rfl, rfl, rfl, rfl⟩

/-- C10: the WhatsApp scheduling computes the send time by replacing the
minute field with the current minute plus two.  For any invocation at
minute ≤ 57 this is a valid time exactly two minutes later within the
same hour; at minute 58 or 59 the replacement raises
`ValueError('minute must be in 0..59')`, so the alert-scheduling path
fails during the last two minutes of every hour. -/
theorem claim10_send_time (t : PyDateTime) :
    (t.minute ≤ 57 →
      whatsappSendTime t
          = Except.ok (PyDateTime.mk t.hour (t.minute + 2) t.second) ∧
        minutesOfDay (PyDateTime.mk t.hour (t.minute + 2) t.second)
          = minutesOfDay t + 2) ∧
    (58 ≤ t.minute →
      whatsappSendTime t = Except.error ("minute must be in 0..59")) := by
  constructor
  · intro h
    constructor
    · rw [whatsappSendTime, replaceMinute, if_pos (by omega)]
    · simp only [minutesOfDay]
      omega
  · intro h
    rw [whatsappSendTime, replaceMinute, if_neg (by omega)]

/-- Witness for C10: at 10:30:00 the send time is 10:32:00, two minutes
later in the same hour; at 23:58:40 and 09:59:05 the scheduling raises. -/
theorem claim10_witness :
    (whatsappSendTime (PyDateTime.mk 10 30 0) = Except.ok (PyDateTime.mk 10 32 0) ∧
      minutesOfDay (PyDateTime.mk 10 32 0) = minutesOfDay (PyDateTime.mk 10 30 0) + 2) ∧
    whatsappSendTime (PyDateTime.mk 23 58 40) = Except.error ("minute must be in 0..59") ∧
    whatsappSendTime (PyDateTime.mk 9 59 5) = Except.error ("minute must be in 0..59") :=
  ⟨(claim10_send_time (PyDateTime.mk 10 30 0)).1 (by decide),
   (claim10_send_time (PyDateTime.mk 23 58 40)).2 (by decide),
   (claim10_send_time (PyDateTime.mk 9 59 5)).2 (by decide)⟩
